import Mathlib

/-!
Verification of the `ZipfAccelerator` contextual logit-acceleration engine
(`zipfEngine.cpp`, class `ZipfAccelerator` in the embedded `zipf.h` section).

Shallow embedding conventions:
* `float` values are modelled as exact rationals (`ℚ`); the repetition
  penalty, which genuinely needs real exponentiation, is modelled over `ℝ`.
* `llama_token` ids are `ℕ`; a vocabulary is a `List VocabEntry` indexed by id.
* `std::unordered_set` fields are modelled as duplicate-free `List ℕ` with
  membership as set membership.
* `std::sort` with comparator `a.second > b.second` sorts descending by
  score; the order of equal-score elements is unspecified by the C++
  standard.  The embedding uses a deterministic insertion sort with the
  non-strict descending order, one admissible refinement of `std::sort`.
-/

set_option maxRecDepth 100000

/-- One vocabulary entry: `token_get_score` and `token_get_text` of the id
given by its position in the vocabulary list. -/
structure VocabEntry where
  score : ℚ
  text : String
deriving DecidableEq

/-- `vocab->token_get_score(id)` (0 for an out-of-range id, unreachable in
the source loops). -/
def scoreOf (vocab : List VocabEntry) (id : ℕ) : ℚ :=
  (vocab.getD id ⟨0, ""⟩).score

/-- `vocab->token_get_text(id)` (empty for an out-of-range id, unreachable in
the source loops). -/
def textOf (vocab : List VocabEntry) (id : ℕ) : String :=
  (vocab.getD id ⟨0, ""⟩).text

/-- Substring containment on character lists: the C++
`std::string::find(pat) != npos`. -/
def hasSubstring : List Char → List Char → Bool
  | [], pat => pat.isEmpty
  | c :: rest, pat => pat.isPrefixOf (c :: rest) || hasSubstring rest pat

/-- `s.find(pat) != std::string::npos`. -/
def strContains (s pat : String) : Bool :=
  hasSubstring s.data pat.data

/-- `to_lower`: `std::transform` with `::tolower` over the characters. -/
def toLowerStr (s : String) : String :=
  ⟨s.data.map Char.toLower⟩

/-- `token_text.find_first_of(".!?\"'") != std::string::npos`
(the apostrophe is written as `Char.ofNat 39`). -/
def isPunctText (s : String) : Bool :=
  s.data.any (fun c => c = '.' || c = '!' || c = '?' || c = '\"' || c = Char.ofNat 39)

/-- `token_text.find('"') != std::string::npos`. -/
def hasQuoteChar (s : String) : Bool :=
  s.data.any (fun c => c = '\"')

/-- Comparator of `std::sort` in the profile builder: `a.second > b.second`,
taken non-strictly so insertion sort realises one admissible order. -/
def scoreOrder (a b : ℕ × ℚ) : Prop := b.2 ≤ a.2

instance : DecidableRel scoreOrder :=
  fun a b => inferInstanceAs (Decidable (b.2 ≤ a.2))

/-- The static per-vocabulary data computed by `ZipfAccelerator`'s builder
(` initialize` in the source): rank order and the four category token sets.
(The remaining output, `base_logit_bias[token] = log(1/(rank+1)^0.3)`, is
transcendental; the acceleration state below carries it as an abstract
rational-valued field.) -/
structure ZipfProfile where
  vocabSize : ℕ
  rankedTokens : List ℕ
  common_tokens : List ℕ
  rare_tokens : List ℕ
  punctuation : List ℕ
  dialogue_tokens : List ℕ
  initializedFlag : Bool

/-- `ZipfAccelerator:: initialize(vocab)`: build `token_scores`, sort by
descending score, then categorise by rank (`rank < common_cutoff` ⇒ COMMON,
`rank > rare_cutoff` ⇒ RARE) and by text (PUNCTUATION from `.!?"'`,
DIALOGUE from `"` inside the punctuation branch).  Sets `initialized`. -/
def initializeZipf (vocab : List VocabEntry) : ZipfProfile :=
  let vocab_size := vocab.length
  let token_scores : List (ℕ × ℚ) := vocab.enum.map (fun p => (p.1, p.2.score))
  let sorted := List.insertionSort scoreOrder token_scores
  let common_cutoff := min 500 (vocab_size / 10)
  let rare_cutoff := vocab_size * 4 / 5
  let ranked := sorted.map Prod.fst
  { vocabSize := vocab_size
    rankedTokens := ranked
    common_tokens := (ranked.enum.filter (fun p => p.1 < common_cutoff)).map Prod.snd
    rare_tokens := (ranked.enum.filter (fun p => rare_cutoff < p.1)).map Prod.snd
    punctuation := ranked.filter (fun t => isPunctText (textOf vocab t))
    dialogue_tokens :=
      ranked.filter (fun t => isPunctText (textOf vocab t) && hasQuoteChar (textOf vocab t))
    initializedFlag := true }

/-- Rank of a token: its position in the rank table. -/
def rankOfToken (p : ZipfProfile) (t : ℕ) : ℕ :=
  p.rankedTokens.indexOf t

/-- `ConversationState`: per-conversation tracking (the unused
`avg_response_length` and `engagement_score` fields are omitted; the
`turn_frequencies` map is modelled as a total function, absent keys read 0,
which the `> 0.1` threshold treats identically to a missing entry). -/
structure ConversationState where
  turn_count : ℕ
  recent_lengths : List ℤ
  turn_frequencies : ℕ → ℚ

/-- `DynamicParams`: the adaptive scalars, each starting at `1.0`. -/
structure DynamicParams where
  complexity_factor : ℚ
  engagement_modifier : ℚ
  pattern_strength : ℚ

/-- The mutable fields of class `ZipfAccelerator` read by `update_context`,
`accelerate_logits` and `get_repetition_penalty`.  `base_logit_bias` is the
field set by the builder to `log(1/(rank+1)^0.3)` per token; being
transcendental it is carried abstractly here. -/
structure ZipfState where
  base_logit_bias : ℕ → ℚ
  common_tokens : List ℕ
  rare_tokens : List ℕ
  punctuation : List ℕ
  dialogue_tokens : List ℕ
  current_role_tokens : List ℕ
  current_mood_tokens : List ℕ
  vocab_size : ℕ
  initializedFlag : Bool
  conv_state : ConversationState
  params : DynamicParams

/-- `get_role_keywords`: the fixed role keyword table, empty list for an
unrecognized role. -/
def get_role_keywords (role : String) : List String :=
  if role = "guard" then ["guard", "watch", "protect", "duty", "patrol", "secure", "defend"]
  else if role = "tavernkeeper" then
    ["tavern", "ale", "drink", "brew", "welcome", "inn", "guest", "room"]
  else if role = "scribe" then
    ["scroll", "write", "record", "ink", "quill", "document", "archive", "knowledge"]
  else if role = "merchant" then
    ["gold", "coin", "trade", "sell", "buy", "price", "goods", "wares"]
  else if role = "knight" then
    ["honor", "sword", "shield", "oath", "noble", "quest", "chivalry"]
  else if role = "wizard" then
    ["magic", "spell", "arcane", "tome", "staff", "enchant", "ritual"]
  else []

/-- `get_mood_keywords`: the fixed mood keyword table, empty list for an
unrecognized mood. -/
def get_mood_keywords (mood : String) : List String :=
  if mood = "friendly" then ["pleased", "welcome", "glad", "happy", "kind", "warm", "cheerful"]
  else if mood = "rude" then ["annoyed", "irritated", "bah", "hmph", "whatever", "fool", "waste"]
  else if mood = "suspicious" then
    ["wary", "careful", "suspicious", "doubt", "trust", "watch", "unsure"]
  else if mood = "deferential" then
    ["sir", "madam", "honor", "respect", "please", "apologize", "forgive"]
  else if mood = "stoic" then ["indeed", "understood", "very well", "quite", "certainly"]
  else []

/-- `std::clamp(v, lo, hi)`. -/
def clampQ (v lo hi : ℚ) : ℚ :=
  if v < lo then lo else if hi < v then hi else v

/-- `update_complexity_factor`: average the recent lengths (0 if none were
recorded), shrink the complexity factor by 0.9 below average 20, grow it by
1.1 above 50, and clamp to `[0.5, 2.0]`. -/
def update_complexity_factor (cs : ConversationState) (p : DynamicParams) : DynamicParams :=
  let avg_length : ℚ :=
    if cs.recent_lengths.isEmpty then 0
    else (cs.recent_lengths.map (fun x => (x : ℚ))).sum / (cs.recent_lengths.length : ℚ)
  let cf :=
    if avg_length < 20 then p.complexity_factor * 0.9
    else if 50 < avg_length then p.complexity_factor * 1.1
    else p.complexity_factor
  { p with complexity_factor := clampQ cf 0.5 2.0 }

/-- `update_context(role, mood, vocab)`: clear and rebuild the role- and
mood-matched sets by lower-cased substring search over every token's text,
then update the conversation state (`turn_count++`, `pop_front` of
`recent_lengths` once it holds 5 entries — note no length is ever pushed)
and recompute the complexity factor. -/
def update_context (st : ZipfState) (role mood : String) (vocab : List VocabEntry) :
    ZipfState :=
  let role_keywords := get_role_keywords role
  let mood_keywords := get_mood_keywords mood
  let roleToks := (List.range st.vocab_size).filter
    (fun id => role_keywords.any (fun kw => strContains (toLowerStr (textOf vocab id)) kw))
  let moodToks := (List.range st.vocab_size).filter
    (fun id => mood_keywords.any (fun kw => strContains (toLowerStr (textOf vocab id)) kw))
  let cs := st.conv_state
  let cs := { cs with
    turn_count := cs.turn_count + 1
    recent_lengths :=
      if 5 ≤ cs.recent_lengths.length then cs.recent_lengths.tail else cs.recent_lengths }
  { st with
    current_role_tokens := roleToks
    current_mood_tokens := moodToks
    conv_state := cs
    params := update_complexity_factor cs st.params }

/-- Step 1 of `accelerate_logits`: `logits[i] += base_logit_bias[i] *
complexity_factor` for every `i < vocab_size`. -/
def apply_base_biases (st : ZipfState) (logits : ℕ → ℚ) : ℕ → ℚ :=
  fun t =>
    if t < st.vocab_size then logits t + st.base_logit_bias t * st.params.complexity_factor
    else logits t

/-- Step 2a of `accelerate_logits`: add `role_boost` to every role-matched
token. -/
def apply_role_boost (st : ZipfState) (logits : ℕ → ℚ) (role_boost : ℚ) : ℕ → ℚ :=
  fun t => if t ∈ st.current_role_tokens then logits t + role_boost else logits t

/-- Step 2b of `accelerate_logits`: add `mood_boost` to every mood-matched
token. -/
def apply_mood_boost (st : ZipfState) (logits : ℕ → ℚ) (mood_boost : ℚ) : ℕ → ℚ :=
  fun t => if t ∈ st.current_mood_tokens then logits t + mood_boost else logits t

/-- `suppress_dialogue_enders`: `logits[token] -= 2.0` for every token in
`dialogue_tokens` that is also in `punctuation`. -/
def suppress_dialogue_enders (st : ZipfState) (logits : ℕ → ℚ) : ℕ → ℚ :=
  fun t =>
    if t ∈ st.dialogue_tokens ∧ t ∈ st.punctuation then logits t - 2.0 else logits t

/-- `boost_dialogue_enders`: `logits[token] += boost` for every token in
`dialogue_tokens`. -/
def boost_dialogue_enders (st : ZipfState) (logits : ℕ → ℚ) (boost : ℚ) : ℕ → ℚ :=
  fun t => if t ∈ st.dialogue_tokens then logits t + boost else logits t

/-- `MAX_RESPONSE_LENGTH = 200`, the fixed constant local to
`accelerate_logits`. -/
def MAX_RESPONSE_LENGTH : ℚ := 200

/-- Step 3 of `accelerate_logits` (dynamic dialogue flow):
`completion_ratio = 1 - min_tokens_remaining / MAX_RESPONSE_LENGTH`; below
0.6 suppress dialogue enders, otherwise boost them by
`dialogue_boost * completion_ratio`. -/
def dialogue_flow_step (st : ZipfState) (logits : ℕ → ℚ) (dialogue_boost : ℚ)
    (min_tokens_remaining : ℤ) : ℕ → ℚ :=
  let completion_frac : ℚ := 1 - (min_tokens_remaining : ℚ) / MAX_RESPONSE_LENGTH
  if completion_frac < 0.6 then suppress_dialogue_enders st logits
  else boost_dialogue_enders st logits (dialogue_boost * completion_frac)

/-- Step 4 of `accelerate_logits` (`apply_conversation_patterns`): add
`0.2 * pattern_strength` to every token whose recorded turn frequency
exceeds 0.1.  (`context_length` is passed but unused, as in the source.) -/
def apply_conversation_patterns (st : ZipfState) (logits : ℕ → ℚ) (_context_length : ℤ) :
    ℕ → ℚ :=
  fun t =>
    if 0.1 < st.conv_state.turn_frequencies t then logits t + 0.2 * st.params.pattern_strength
    else logits t

/-- `accelerate_logits(logits, context_length, min_tokens_remaining)`: the
in-place logit mutation, modelled as a function from the old to the new
logit buffer.  Returns the buffer unchanged when not initialized. -/
def accelerate_logits (st : ZipfState) (logits : ℕ → ℚ) (context_length : ℤ)
    (min_tokens_remaining : ℤ) : ℕ → ℚ :=
  if st.initializedFlag = false then logits else
  let logits1 := apply_base_biases st logits
  let role_boost : ℚ := 0.5 * st.params.engagement_modifier
  let mood_boost : ℚ := 0.3 * st.params.engagement_modifier
  let dialogue_boost : ℚ := 0.4 * st.params.pattern_strength
  let role_boost := if context_length < 10 then role_boost * 1.5 else role_boost
  let mood_boost := if context_length < 10 then mood_boost * 1.5 else mood_boost
  let logits2 := apply_role_boost st logits1 role_boost
  let logits3 := apply_mood_boost st logits2 mood_boost
  let logits4 := dialogue_flow_step st logits3 dialogue_boost min_tokens_remaining
  apply_conversation_patterns st logits4 context_length

/-- `get_repetition_penalty(token, count)`: `0.9 ^ (count * 0.7)` for COMMON
tokens, `0.9 ^ (count * 1.3)` for every other token (real exponentiation). -/
noncomputable def get_repetition_penalty (st : ZipfState) (token : ℕ) (count : ℕ) : ℝ :=
  let base_penalty : ℝ := 0.9
  if token ∈ st.common_tokens then base_penalty ^ ((count : ℝ) * 0.7)
  else base_penalty ^ ((count : ℝ) * 1.3)

/-- Total magnitude of the shift between two logit buffers over the first
`n` tokens (the whole vocabulary in the claims below). -/
def total_shift (n : ℕ) (before after : ℕ → ℚ) : ℚ :=
  ∑ t in Finset.range n, |after t - before t|

/-- Assemble a `ZipfState` from a built profile, a bias assignment for its
`base_logit_bias` field, and the remaining conversation-scoped fields. -/
def stateOfProfile (p : ZipfProfile) (bias : ℕ → ℚ) (roleToks moodToks : List ℕ)
    (cs : ConversationState) (dp : DynamicParams) : ZipfState :=
  { base_logit_bias := bias
    common_tokens := p.common_tokens
    rare_tokens := p.rare_tokens
    punctuation := p.punctuation
    dialogue_tokens := p.dialogue_tokens
    current_role_tokens := roleToks
    current_mood_tokens := moodToks
    vocab_size := p.vocabSize
    initializedFlag := p.initializedFlag
    conv_state := cs
    params := dp }

/-- A conversation state as default-constructed in the source. -/
def freshConvState : ConversationState := ⟨0, [], fun _ => 0⟩

/-- The adaptive parameters at their initial value `1.0`. -/
def unitParams : DynamicParams := ⟨1, 1, 1⟩

/-- A freshly constructed accelerator (all sets empty) marked initialized,
with vocabulary size 0. -/
def freshState : ZipfState :=
  ⟨fun _ => 0, [], [], [], [], [], [], 0, true, freshConvState, unitParams⟩

/-- 20-token test vocabulary, token `i` scoring `20 - i`. -/
def testVocab20 : List VocabEntry :=
  (List.range 20).map (fun i => ⟨((20 - i : ℕ) : ℚ), "t"⟩)

-- Definitional unfoldings of the profile builder's fields.

theorem rankedTokens_eq (vocab : List VocabEntry) :
    (initializeZipf vocab).rankedTokens =
      (List.insertionSort scoreOrder (vocab.enum.map (fun p => (p.1, p.2.score)))).map
        Prod.fst := rfl

theorem common_tokens_eq (vocab : List VocabEntry) :
    (initializeZipf vocab).common_tokens =
      ((initializeZipf vocab).rankedTokens.enum.filter
        (fun p => p.1 < min 500 (vocab.length / 10))).map Prod.snd := rfl

theorem rare_tokens_eq (vocab : List VocabEntry) :
    (initializeZipf vocab).rare_tokens =
      ((initializeZipf vocab).rankedTokens.enum.filter
        (fun p => vocab.length * 4 / 5 < p.1)).map Prod.snd := rfl

theorem punctuation_eq (vocab : List VocabEntry) :
    (initializeZipf vocab).punctuation =
      (initializeZipf vocab).rankedTokens.filter (fun t => isPunctText (textOf vocab t)) := rfl

theorem dialogue_tokens_eq (vocab : List VocabEntry) :
    (initializeZipf vocab).dialogue_tokens =
      (initializeZipf vocab).rankedTokens.filter
        (fun t => isPunctText (textOf vocab t) && hasQuoteChar (textOf vocab t)) := rfl

/-- The rank table is a permutation of the token ids `0, …, n-1`. -/
theorem ranked_perm_range (vocab : List VocabEntry) :
    ((initializeZipf vocab).rankedTokens).Perm (List.range vocab.length) := by
  rw [rankedTokens_eq]
  have h :=
    (List.perm_insertionSort scoreOrder (vocab.enum.map (fun p => (p.1, p.2.score)))).map
      Prod.fst
  have e : (vocab.enum.map (fun p : ℕ × VocabEntry => (p.1, p.2.score))).map Prod.fst
      = List.range vocab.length := by
    rw [List.map_map]
    have : (Prod.fst ∘ fun p : ℕ × VocabEntry => (p.1, p.2.score)) = Prod.fst := rfl
    rw [this, List.enum_map_fst]
  rw [e] at h
  exact h

/-- No token appears at two different ranks. -/
theorem ranked_nodup (vocab : List VocabEntry) :
    ((initializeZipf vocab).rankedTokens).Nodup :=
  (ranked_perm_range vocab).nodup_iff.mpr (List.nodup_range _)

/-- A COMMON token sits at some rank below the common cutoff. -/
theorem mem_common_rank {vocab : List VocabEntry} {t : ℕ}
    (h : t ∈ (initializeZipf vocab).common_tokens) :
    ∃ i, ((initializeZipf vocab).rankedTokens)[i]? = some t ∧
      i < min 500 (vocab.length / 10) := by
  rw [common_tokens_eq] at h
  rcases List.mem_map.mp h with ⟨pr, hpr, rfl⟩
  rcases List.mem_filter.mp hpr with ⟨hmem, hcond⟩
  exact ⟨pr.1, List.mem_enum_iff_getElem?.mp hmem, by simpa using hcond⟩

/-- A RARE token sits at some rank above the rare cutoff. -/
theorem mem_rare_rank {vocab : List VocabEntry} {t : ℕ}
    (h : t ∈ (initializeZipf vocab).rare_tokens) :
    ∃ i, ((initializeZipf vocab).rankedTokens)[i]? = some t ∧
      vocab.length * 4 / 5 < i := by
  rw [rare_tokens_eq] at h
  rcases List.mem_map.mp h with ⟨pr, hpr, rfl⟩
  rcases List.mem_filter.mp hpr with ⟨hmem, hcond⟩
  exact ⟨pr.1, List.mem_enum_iff_getElem?.mp hmem, by simpa using hcond⟩

/-- C9: for every vocabulary, the COMMON and RARE sets produced by the
profile builder are disjoint: no token is flagged both COMMON and RARE. -/
theorem zipf_C9_common_rare_disjoint (vocab : List VocabEntry) (t : ℕ)
    (h : t ∈ (initializeZipf vocab).common_tokens) :
    t ∉ (initializeZipf vocab).rare_tokens := by
  intro hr
  obtain ⟨i, hi, hic⟩ := mem_common_rank h
  obtain ⟨j, hj, hjc⟩ := mem_rare_rank hr
  have hlen : i < ((initializeZipf vocab).rankedTokens).length :=
    (List.getElem?_eq_some.mp hi).1
  have hij : i = j :=
    List.getElem?_inj hlen (ranked_nodup vocab) (hi.trans hj.symm)
  have h10 : i < vocab.length / 10 := lt_of_lt_of_le hic (Nat.min_le_right _ _)
  omega

/-- C9 witness: token 0 of the 20-token test vocabulary is COMMON, hence
not RARE. -/
theorem zipf_C9_witness :
    0 ∈ (initializeZipf testVocab20).common_tokens ∧
      0 ∉ (initializeZipf testVocab20).rare_tokens :=
  ⟨by decide, zipf_C9_common_rare_disjoint testVocab20 0 (by decide)⟩

/-- A text containing `"` satisfies the `.!?"'` punctuation test. -/
theorem quote_implies_punct {s : String} (h : hasQuoteChar s = true) :
    isPunctText s = true := by
  unfold hasQuoteChar at h
  unfold isPunctText
  rcases List.any_eq_true.mp h with ⟨c, hc, hq⟩
  exact List.any_eq_true.mpr ⟨c, hc, by simp_all⟩

/-- C10: the DIALOGUE set is a subset of the PUNCTUATION set; any ranked
token whose text contains a quotation mark is flagged PUNCTUATION; hence the
suppress branch reaches every DIALOGUE-flagged token, subtracting exactly 2. -/
theorem zipf_C10_dialogue_subset_punct (vocab : List VocabEntry) (t : ℕ) :
    (t ∈ (initializeZipf vocab).dialogue_tokens → t ∈ (initializeZipf vocab).punctuation) ∧
    (t ∈ (initializeZipf vocab).rankedTokens → hasQuoteChar (textOf vocab t) = true →
      t ∈ (initializeZipf vocab).punctuation) ∧
    (∀ (bias : ℕ → ℚ) (rT mT : List ℕ) (cs : ConversationState) (dp : DynamicParams)
      (L : ℕ → ℚ), t ∈ (initializeZipf vocab).dialogue_tokens →
      suppress_dialogue_enders
        (stateOfProfile (initializeZipf vocab) bias rT mT cs dp) L t = L t - 2) := by
  have hsub : t ∈ (initializeZipf vocab).dialogue_tokens →
      t ∈ (initializeZipf vocab).punctuation := by
    intro h
    rw [dialogue_tokens_eq] at h
    rcases List.mem_filter.mp h with ⟨hmem, hcond⟩
    have hcond' : isPunctText (textOf vocab t) = true ∧
        hasQuoteChar (textOf vocab t) = true := by simpa using hcond
    rw [punctuation_eq]
    exact List.mem_filter.mpr ⟨hmem, hcond'.1⟩
  refine ⟨hsub, ?_, ?_⟩
  · intro hmem hquote
    rw [punctuation_eq]
    exact List.mem_filter.mpr ⟨hmem, quote_implies_punct hquote⟩
  · intro bias rT mT cs dp L h
    have hp := hsub h
    show (if t ∈ (initializeZipf vocab).dialogue_tokens ∧
        t ∈ (initializeZipf vocab).punctuation then L t - 2.0 else L t) = L t - 2
    rw [if_pos ⟨h, hp⟩]
    norm_num

/-- C10 witness: in a two-token vocabulary whose token 1 is `"`, token 1 is
DIALOGUE and the suppress step subtracts 2 from it. -/
theorem zipf_C10_witness :
    1 ∈ (initializeZipf [⟨2, "a"⟩, ⟨1, "\""⟩]).dialogue_tokens ∧
      1 ∈ (initializeZipf [⟨2, "a"⟩, ⟨1, "\""⟩]).punctuation ∧
      suppress_dialogue_enders
        (stateOfProfile (initializeZipf [⟨2, "a"⟩, ⟨1, "\""⟩]) (fun _ => 0) [] []
          freshConvState unitParams) (fun _ => 0) 1 = 0 - 2 :=
  ⟨by decide,
   (zipf_C10_dialogue_subset_punct [⟨2, "a"⟩, ⟨1, "\""⟩] 1).1 (by decide),
   (zipf_C10_dialogue_subset_punct [⟨2, "a"⟩, ⟨1, "\""⟩] 1).2.2 (fun _ => 0) [] []
     freshConvState unitParams (fun _ => 0) (by decide)⟩

/-- C3 counterexample: the builder performs no emptiness check — on the
empty vocabulary it completes normally, marking the accelerator
initialized, rather than failing with `InvalidVocabulary`. -/
theorem zipf_C3_empty_succeeds :
    (initializeZipf []).initializedFlag = true ∧ (initializeZipf []).vocabSize = 0 ∧
      (initializeZipf []).rankedTokens = [] := by
  decide

/-- C3 (amended): the builder is total and never signals an error: for every
vocabulary, including the empty one, it completes with the initialized flag
set and the recorded vocabulary size equal to the input length. -/
theorem zipf_C3_build_total (vocab : List VocabEntry) :
    (initializeZipf vocab).initializedFlag = true ∧
      (initializeZipf vocab).vocabSize = vocab.length :=
  ⟨rfl, rfl⟩

/-- C1: the per-turn conversation-state update never appends the turn's
response length — `recent_lengths` can only shrink — and on the first turn
from a fresh state it leaves `recent_lengths` empty, makes `turn_count` 1,
and decays `complexity_factor` to 0.9 (avg over the empty window is 0 < 20)
regardless of the actual response length. -/
theorem zipf_C1_record_turn_never_appends :
    (∀ (st : ZipfState) (role mood : String) (vocab : List VocabEntry),
      ((update_context st role mood vocab).conv_state.recent_lengths).length
        ≤ st.conv_state.recent_lengths.length) ∧
    (update_context freshState "guard" "friendly" []).conv_state.recent_lengths = [] ∧
    (update_context freshState "guard" "friendly" []).conv_state.turn_count = 1 ∧
    (update_context freshState "guard" "friendly" []).params.complexity_factor = 0.9 := by
  refine ⟨?_, by decide, by decide, ?_⟩
  · intro st role mood vocab
    show (if 5 ≤ st.conv_state.recent_lengths.length then st.conv_state.recent_lengths.tail
      else st.conv_state.recent_lengths).length ≤ st.conv_state.recent_lengths.length
    split
    · rw [List.length_tail]; omega
    · exact le_refl _
  · show (update_complexity_factor _ unitParams).complexity_factor = 0.9
    unfold update_complexity_factor clampQ
    norm_num [freshState, freshConvState, unitParams]

/-- 1000-token test vocabulary, token `i` scoring `1000 - i`. -/
def testVocab1000 : List VocabEntry :=
  (List.range 1000).map (fun i => ⟨((1000 - i : ℕ) : ℚ), "t"⟩)

/-- C2 counterexample: on the 1000-token vocabulary with
`frequencyScore = 1000 - i`, the RARE set does not have 200 tokens — the
`rank > rare_cutoff` comparison is strict, so only ranks 801–999 qualify. -/
theorem zipf_C2_rare_not_200 :
    (initializeZipf testVocab1000).rare_tokens.length ≠ 200 := by
  decide

/-- C2 (amended): for the 1000-token vocabulary with
`frequencyScore = 1000 - i`, token 0 gets rank 0, the COMMON set has exactly
100 (distinct) tokens, and the RARE set exactly 199 (distinct) tokens. -/
theorem zipf_C2_thousand_token_profile :
    rankOfToken (initializeZipf testVocab1000) 0 = 0 ∧
    (initializeZipf testVocab1000).common_tokens.length = 100 ∧
    (initializeZipf testVocab1000).common_tokens.Nodup ∧
    (initializeZipf testVocab1000).rare_tokens.length = 199 ∧
    (initializeZipf testVocab1000).rare_tokens.Nodup := by
  refine ⟨by decide, by decide, by decide, by decide, by decide⟩

/-- C5: the repetition penalty is `0.9 ^ (n·0.7)` for COMMON tokens and
`0.9 ^ (n·1.3)` otherwise; it lies in `(0, 1]`, equals 1 at `n = 0`, is
strictly decreasing in the occurrence count, and for equal counts a COMMON
token's penalty is at least a non-COMMON token's penalty. -/
theorem zipf_C5_repetition_penalty (st : ZipfState) (t t₁ t₂ : ℕ) (n m : ℕ) :
    (t ∈ st.common_tokens →
      get_repetition_penalty st t n = (0.9 : ℝ) ^ ((n : ℝ) * 0.7)) ∧
    (t ∉ st.common_tokens →
      get_repetition_penalty st t n = (0.9 : ℝ) ^ ((n : ℝ) * 1.3)) ∧
    (0 < get_repetition_penalty st t n ∧ get_repetition_penalty st t n ≤ 1) ∧
    get_repetition_penalty st t 0 = 1 ∧
    (n < m → get_repetition_penalty st t m < get_repetition_penalty st t n) ∧
    (t₁ ∈ st.common_tokens → t₂ ∉ st.common_tokens →
      get_repetition_penalty st t₂ n ≤ get_repetition_penalty st t₁ n) := by
  have h09 : (0 : ℝ) < 0.9 := by norm_num
  have h091 : (0.9 : ℝ) < 1 := by norm_num
  have hpen : ∀ (tok : ℕ) (k : ℕ), get_repetition_penalty st tok k =
      if tok ∈ st.common_tokens then (0.9 : ℝ) ^ ((k : ℝ) * 0.7)
      else (0.9 : ℝ) ^ ((k : ℝ) * 1.3) := fun _ _ => rfl
  refine ⟨fun h => by rw [hpen, if_pos h], fun h => by rw [hpen, if_neg h], ⟨?_, ?_⟩,
    ?_, ?_, ?_⟩
  · rw [hpen]
    split <;> exact Real.rpow_pos_of_pos h09 _
  · rw [hpen]
    split <;>
      exact Real.rpow_le_one (le_of_lt h09) (le_of_lt h091)
        (mul_nonneg (Nat.cast_nonneg _) (by norm_num))
  · rw [hpen]
    split <;> simp
  · intro hnm
    rw [hpen, hpen]
    have hcast : (n : ℝ) < (m : ℝ) := Nat.cast_lt.mpr hnm
    split
    · exact Real.rpow_lt_rpow_of_exponent_gt h09 h091
        (by nlinarith)
    · exact Real.rpow_lt_rpow_of_exponent_gt h09 h091
        (by nlinarith)
  · intro h1 h2
    rw [hpen, hpen, if_pos h1, if_neg h2]
    exact Real.rpow_le_rpow_of_exponent_ge h09 (le_of_lt h091)
      (mul_le_mul_of_nonneg_left (by norm_num) (Nat.cast_nonneg _))

/-- A state whose COMMON set is `{0}`, for instantiating C5. -/
def stateWithCommon0 : ZipfState :=
  { freshState with common_tokens := [0] }

/-- C5 witness: concrete instantiation — token 0 is COMMON, token 1 is not,
the penalty strictly decreases from count 1 to count 2, and the COMMON
token's penalty dominates at count 4. -/
theorem zipf_C5_witness :
    get_repetition_penalty stateWithCommon0 3 2 < get_repetition_penalty stateWithCommon0 3 1 ∧
      get_repetition_penalty stateWithCommon0 1 4 ≤
        get_repetition_penalty stateWithCommon0 0 4 :=
  ⟨(zipf_C5_repetition_penalty stateWithCommon0 3 0 1 1 2).2.2.2.2.1 (by decide),
   (zipf_C5_repetition_penalty stateWithCommon0 3 0 1 4 5).2.2.2.2.2 (by decide) (by decide)⟩

/-- C6: `update_context` computes both matched sets from scratch (full
replacement — the result does not depend on the previous sets); every member
of the role set for role `guard` has lower-cased text containing one of the
seven guard keywords; and an unrecognized role or mood (one whose keyword
lookup is empty) yields an empty matched set rather than failing. -/
theorem zipf_C6_context_sets (st : ZipfState) (role mood : String)
    (vocab : List VocabEntry) :
    ((update_context st role mood vocab).current_role_tokens =
      (List.range st.vocab_size).filter
        (fun id => (get_role_keywords role).any
          (fun kw => strContains (toLowerStr (textOf vocab id)) kw))) ∧
    ((update_context st role mood vocab).current_mood_tokens =
      (List.range st.vocab_size).filter
        (fun id => (get_mood_keywords mood).any
          (fun kw => strContains (toLowerStr (textOf vocab id)) kw))) ∧
    (∀ t, t ∈ (update_context st "guard" mood vocab).current_role_tokens →
      ∃ kw ∈ (["guard", "watch", "protect", "duty", "patrol", "secure", "defend"] :
          List String),
        strContains (toLowerStr (textOf vocab t)) kw = true) ∧
    (get_role_keywords role = [] →
      (update_context st role mood vocab).current_role_tokens = []) ∧
    (get_mood_keywords mood = [] →
      (update_context st role mood vocab).current_mood_tokens = []) := by
  refine ⟨rfl, rfl, ?_, ?_, ?_⟩
  · intro t ht
    have h : t ∈ (List.range st.vocab_size).filter
        (fun id => (get_role_keywords "guard").any
          (fun kw => strContains (toLowerStr (textOf vocab id)) kw)) := ht
    rcases List.mem_filter.mp h with ⟨-, hcond⟩
    have hany := List.any_eq_true.mp hcond
    rcases hany with ⟨kw, hkw, hc⟩
    exact ⟨kw, hkw, hc⟩
  · intro h
    show (List.range st.vocab_size).filter _ = []
    rw [h]
    simp
  · intro h
    show (List.range st.vocab_size).filter _ = []
    rw [h]
    simp

/-- Two-token test vocabulary for C6. -/
def testVocabC6 : List VocabEntry := [⟨2, "On GUARD duty!"⟩, ⟨1, "hello"⟩]

/-- A state whose vocabulary size is 2, for instantiating C6. -/
def stateSize2 : ZipfState :=
  { freshState with vocab_size := 2 }

/-- C6 witness: with the two-token vocabulary, an unknown role and mood give
two empty sets, and token 0 of the guard role set matches a guard keyword. -/
theorem zipf_C6_witness :
    (update_context stateSize2 "unknown" "unknown" testVocabC6).current_role_tokens = [] ∧
    (update_context stateSize2 "unknown" "unknown" testVocabC6).current_mood_tokens = [] ∧
    (∃ kw ∈ (["guard", "watch", "protect", "duty", "patrol", "secure", "defend"] :
        List String),
      strContains (toLowerStr (textOf testVocabC6 0)) kw = true) :=
  ⟨(zipf_C6_context_sets stateSize2 "unknown" "unknown" testVocabC6).2.2.2.1 (by decide),
   (zipf_C6_context_sets stateSize2 "unknown" "unknown" testVocabC6).2.2.2.2 (by decide),
   (zipf_C6_context_sets stateSize2 "guard" "friendly" testVocabC6).2.2.1 0 (by decide)⟩

/-- The dialogue-flow branch condition `1 - r/200 < 0.6` holds exactly when
`80 < r`. -/
theorem ratio_lt_threshold_iff (r : ℤ) :
    ((1 : ℚ) - (r : ℚ) / 200 < 0.6) ↔ 80 < r := by
  rw [show (0.6 : ℚ) = 3 / 5 by norm_num]
  constructor
  · intro h
    by_contra hc
    push_neg at hc
    have hr : (r : ℚ) ≤ 80 := by exact_mod_cast hc
    linarith
  · intro h
    have hr : (80 : ℚ) < (r : ℚ) := by exact_mod_cast h
    linarith

/-- For an initialized accelerator, `accelerate_logits` is the composition
of its four steps, invoking the dialogue-flow step with
`dialogue_boost = 0.4 * pattern_strength`. -/
theorem accelerate_unfold (st : ZipfState) (L : ℕ → ℚ) (c r : ℤ)
    (h : st.initializedFlag = true) :
    accelerate_logits st L c r = apply_conversation_patterns st
      (dialogue_flow_step st
        (apply_mood_boost st
          (apply_role_boost st (apply_base_biases st L)
            (if c < 10 then 0.5 * st.params.engagement_modifier * 1.5
             else 0.5 * st.params.engagement_modifier))
          (if c < 10 then 0.3 * st.params.engagement_modifier * 1.5
           else 0.3 * st.params.engagement_modifier))
        (0.4 * st.params.pattern_strength) r) c := by
  unfold accelerate_logits
  rw [if_neg (by simp [h])]

/-- C7: inside `accelerate_logits`, the dialogue-flow step uses
`completionRatio = 1 - min_tokens_remaining/200` with the fixed constant
200; below 0.6 it subtracts exactly 2 from every token flagged both
DIALOGUE and PUNCTUATION and leaves every other token unchanged by this
step, otherwise it adds `dialogueBoost * completionRatio` (with
`dialogueBoost = 0.4 * patternStrength`) to every DIALOGUE token; and
`accelerate_logits` invokes exactly this step with that boost. -/
theorem zipf_C7_dialogue_flow (st : ZipfState) (L : ℕ → ℚ) (c r : ℤ) (t : ℕ) :
    ((1 - (r : ℚ) / 200 < 0.6) →
      dialogue_flow_step st L (0.4 * st.params.pattern_strength) r t =
        if t ∈ st.dialogue_tokens ∧ t ∈ st.punctuation then L t - 2 else L t) ∧
    (¬(1 - (r : ℚ) / 200 < 0.6) →
      dialogue_flow_step st L (0.4 * st.params.pattern_strength) r t =
        if t ∈ st.dialogue_tokens then
          L t + (0.4 * st.params.pattern_strength) * (1 - (r : ℚ) / 200)
        else L t) ∧
    ((1 - (r : ℚ) / 200 < 0.6) ↔ 80 < r) ∧
    (st.initializedFlag = true →
      accelerate_logits st L c r = apply_conversation_patterns st
        (dialogue_flow_step st
          (apply_mood_boost st
            (apply_role_boost st (apply_base_biases st L)
              (if c < 10 then 0.5 * st.params.engagement_modifier * 1.5
               else 0.5 * st.params.engagement_modifier))
            (if c < 10 then 0.3 * st.params.engagement_modifier * 1.5
             else 0.3 * st.params.engagement_modifier))
          (0.4 * st.params.pattern_strength) r) c) := by
  refine ⟨?_, ?_, ratio_lt_threshold_iff r, ?_⟩
  · intro h
    show (if (1 : ℚ) - (r : ℚ) / MAX_RESPONSE_LENGTH < 0.6 then
        suppress_dialogue_enders st L
      else boost_dialogue_enders st L
        (0.4 * st.params.pattern_strength * (1 - (r : ℚ) / MAX_RESPONSE_LENGTH))) t = _
    rw [show MAX_RESPONSE_LENGTH = 200 from rfl, if_pos h]
    show (if t ∈ st.dialogue_tokens ∧ t ∈ st.punctuation then L t - 2.0 else L t) = _
    split_ifs <;> norm_num
  · intro h
    show (if (1 : ℚ) - (r : ℚ) / MAX_RESPONSE_LENGTH < 0.6 then
        suppress_dialogue_enders st L
      else boost_dialogue_enders st L
        (0.4 * st.params.pattern_strength * (1 - (r : ℚ) / MAX_RESPONSE_LENGTH))) t = _
    rw [show MAX_RESPONSE_LENGTH = 200 from rfl, if_neg h]
    rfl
  · exact fun hinit => accelerate_unfold st L c r hinit

/-- A state with a single token that is both DIALOGUE and PUNCTUATION, for
instantiating C7 and C8. -/
def stateOneEnder : ZipfState :=
  ⟨fun _ => 0, [], [], [0], [0], [], [], 1, true, freshConvState, unitParams⟩

/-- C7 witness: with 100 tokens remaining the ratio is 0.5 < 0.6 and the
dialogue ender's logit drops by exactly 2. -/
theorem zipf_C7_witness :
    dialogue_flow_step stateOneEnder (fun _ => 0) (0.4 * stateOneEnder.params.pattern_strength)
        100 0 =
      if 0 ∈ stateOneEnder.dialogue_tokens ∧ 0 ∈ stateOneEnder.punctuation then (0 : ℚ) - 2
      else 0 :=
  (zipf_C7_dialogue_flow stateOneEnder (fun _ => 0) 0 100 0).1
    ((zipf_C7_dialogue_flow stateOneEnder (fun _ => 0) 0 100 0).2.2.1.mpr (by decide))

/-- Per-token delta added by step 1, independent of the incoming logits. -/
theorem apply_base_biases_delta (st : ZipfState) (X : ℕ → ℚ) (t : ℕ) :
    apply_base_biases st X t = X t +
      (if t < st.vocab_size then st.base_logit_bias t * st.params.complexity_factor
       else 0) := by
  show (if t < st.vocab_size then X t + st.base_logit_bias t * st.params.complexity_factor
    else X t) = _
  split_ifs <;> ring

/-- Per-token delta added by the role boost, independent of the logits. -/
theorem apply_role_boost_delta (st : ZipfState) (X : ℕ → ℚ) (b : ℚ) (t : ℕ) :
    apply_role_boost st X b t = X t + (if t ∈ st.current_role_tokens then b else 0) := by
  show (if t ∈ st.current_role_tokens then X t + b else X t) = _
  split_ifs <;> ring

/-- Per-token delta added by the mood boost, independent of the logits. -/
theorem apply_mood_boost_delta (st : ZipfState) (X : ℕ → ℚ) (b : ℚ) (t : ℕ) :
    apply_mood_boost st X b t = X t + (if t ∈ st.current_mood_tokens then b else 0) := by
  show (if t ∈ st.current_mood_tokens then X t + b else X t) = _
  split_ifs <;> ring

/-- Per-token delta added by the dialogue-flow step, independent of the
logits. -/
theorem dialogue_flow_delta (st : ZipfState) (X : ℕ → ℚ) (b : ℚ) (r : ℤ) (t : ℕ) :
    dialogue_flow_step st X b r t = X t +
      (if (1 : ℚ) - (r : ℚ) / 200 < 0.6 then
        (if t ∈ st.dialogue_tokens ∧ t ∈ st.punctuation then -2 else 0)
       else (if t ∈ st.dialogue_tokens then b * (1 - (r : ℚ) / 200) else 0)) := by
  show (if (1 : ℚ) - (r : ℚ) / MAX_RESPONSE_LENGTH < 0.6 then
      suppress_dialogue_enders st X
    else boost_dialogue_enders st X (b * (1 - (r : ℚ) / MAX_RESPONSE_LENGTH))) t = _
  rw [show MAX_RESPONSE_LENGTH = 200 from rfl]
  split_ifs with h h1 h2
  · show (if t ∈ st.dialogue_tokens ∧ t ∈ st.punctuation then X t - 2.0 else X t) = X t + -2
    rw [if_pos h1]; ring
  · show (if t ∈ st.dialogue_tokens ∧ t ∈ st.punctuation then X t - 2.0 else X t) = X t + 0
    rw [if_neg h1]; ring
  · show (if t ∈ st.dialogue_tokens then X t + b * (1 - (r : ℚ) / 200) else X t) =
      X t + b * (1 - (r : ℚ) / 200)
    rw [if_pos h2]
  · show (if t ∈ st.dialogue_tokens then X t + b * (1 - (r : ℚ) / 200) else X t) = X t + 0
    rw [if_neg h2]; ring

/-- Per-token delta added by step 4, independent of the logits. -/
theorem apply_conversation_patterns_delta (st : ZipfState) (X : ℕ → ℚ) (c : ℤ) (t : ℕ) :
    apply_conversation_patterns st X c t = X t +
      (if 0.1 < st.conv_state.turn_frequencies t then 0.2 * st.params.pattern_strength
       else 0) := by
  show (if 0.1 < st.conv_state.turn_frequencies t then
      X t + 0.2 * st.params.pattern_strength else X t) = _
  split_ifs <;> ring

/-- `accelerate_logits` adds a delta that does not depend on the incoming
logit values: its action on any buffer equals the buffer plus its action on
the zero buffer. -/
theorem accelerate_pointwise (st : ZipfState) (L : ℕ → ℚ) (c r : ℤ) (t : ℕ) :
    accelerate_logits st L c r t = L t + accelerate_logits st (fun _ => 0) c r t := by
  by_cases hinit : st.initializedFlag = true
  · rw [accelerate_unfold st L c r hinit, accelerate_unfold st (fun _ => 0) c r hinit]
    rw [apply_conversation_patterns_delta, apply_conversation_patterns_delta,
      dialogue_flow_delta, dialogue_flow_delta, apply_mood_boost_delta,
      apply_mood_boost_delta, apply_role_boost_delta, apply_role_boost_delta,
      apply_base_biases_delta, apply_base_biases_delta]
    ring
  · have hf : st.initializedFlag = false := by
      revert hinit
      cases st.initializedFlag <;> simp
    unfold accelerate_logits
    rw [if_pos hf, if_pos hf]
    simp

/-- C8 (amended): applying `accelerate_logits` twice with unchanged context
shifts the logits by exactly twice the single-application magnitude, so the
double shift is strictly larger whenever a single application moves the
logits at all — but not in degenerate contexts whose per-call delta is zero. -/
theorem zipf_C8_twice_doubles (st : ZipfState) (L : ℕ → ℚ) (c r : ℤ) :
    total_shift st.vocab_size L
        (accelerate_logits st (accelerate_logits st L c r) c r) =
      2 * total_shift st.vocab_size L (accelerate_logits st L c r) ∧
    (0 < total_shift st.vocab_size L (accelerate_logits st L c r) →
      total_shift st.vocab_size L (accelerate_logits st L c r) <
        total_shift st.vocab_size L
          (accelerate_logits st (accelerate_logits st L c r) c r)) := by
  have hpt : ∀ t, accelerate_logits st (accelerate_logits st L c r) c r t - L t =
      2 * (accelerate_logits st L c r t - L t) := by
    intro t
    rw [accelerate_pointwise st (accelerate_logits st L c r) c r t,
      accelerate_pointwise st L c r t]
    ring
  have heq : total_shift st.vocab_size L
      (accelerate_logits st (accelerate_logits st L c r) c r) =
      2 * total_shift st.vocab_size L (accelerate_logits st L c r) := by
    unfold total_shift
    rw [Finset.mul_sum]
    refine Finset.sum_congr rfl (fun t _ => ?_)
    rw [hpt t, abs_mul]
    norm_num
  exact ⟨heq, fun hpos => by rw [heq]; linarith⟩

/-- The degenerate context for the C8 counterexample: the profile built from
a one-token vocabulary (text `a`), whose only token has rank 0 and hence
base bias `log(1/(0+1)^0.3) = log 1 = 0`, with no matched sets and no
recorded turn frequencies. -/
def stateOneToken : ZipfState :=
  stateOfProfile (initializeZipf [⟨1, "a"⟩]) (fun _ => 0) [] [] freshConvState unitParams

/-- In the degenerate one-token context every acceleration step is a no-op. -/
theorem stateOneToken_accel_id (X : ℕ → ℚ) (t : ℕ) :
    accelerate_logits stateOneToken X 0 0 t = X t := by
  have hdial : stateOneToken.dialogue_tokens = [] := by decide
  have hrole : stateOneToken.current_role_tokens = [] := rfl
  have hmood : stateOneToken.current_mood_tokens = [] := rfl
  have hbias : stateOneToken.base_logit_bias t = 0 := rfl
  have hfreq : stateOneToken.conv_state.turn_frequencies t = 0 := rfl
  rw [accelerate_unfold stateOneToken X 0 0 rfl]
  rw [apply_conversation_patterns_delta, dialogue_flow_delta, apply_mood_boost_delta,
    apply_role_boost_delta, apply_base_biases_delta]
  rw [hdial, hrole, hmood, hbias, hfreq]
  norm_num

/-- C8 counterexample: in the degenerate one-token context the claim fails —
two applications do not shift the logits by strictly more than one, since
both shifts are zero. -/
theorem zipf_C8_counterexample :
    ¬ (total_shift stateOneToken.vocab_size (fun _ => 0)
          (accelerate_logits stateOneToken
            (accelerate_logits stateOneToken (fun _ => 0) 0 0) 0 0) >
        total_shift stateOneToken.vocab_size (fun _ => 0)
          (accelerate_logits stateOneToken (fun _ => 0) 0 0)) := by
  have h1 : total_shift stateOneToken.vocab_size (fun _ => 0)
      (accelerate_logits stateOneToken (fun _ => 0) 0 0) = 0 := by
    unfold total_shift
    refine Finset.sum_eq_zero (fun t _ => ?_)
    rw [stateOneToken_accel_id]
    simp
  have h2 : total_shift stateOneToken.vocab_size (fun _ => 0)
      (accelerate_logits stateOneToken
        (accelerate_logits stateOneToken (fun _ => 0) 0 0) 0 0) = 0 := by
    unfold total_shift
    refine Finset.sum_eq_zero (fun t _ => ?_)
    rw [stateOneToken_accel_id, stateOneToken_accel_id]
    simp
  rw [h1, h2]
  exact lt_irrefl 0

/-- One application already moves the dialogue-ender state's logits. -/
theorem stateOneEnder_shift_pos :
    0 < total_shift stateOneEnder.vocab_size (fun _ => 0)
      (accelerate_logits stateOneEnder (fun _ => 0) 0 100) := by
  have hval : accelerate_logits stateOneEnder (fun _ => 0) 0 100 0 = -2 := by
    rw [accelerate_unfold stateOneEnder (fun _ => 0) 0 100 rfl]
    rw [apply_conversation_patterns_delta, dialogue_flow_delta, apply_mood_boost_delta,
      apply_role_boost_delta, apply_base_biases_delta]
    have hd : (0 : ℕ) ∈ stateOneEnder.dialogue_tokens := by decide
    have hp : (0 : ℕ) ∈ stateOneEnder.punctuation := by decide
    have hrole : stateOneEnder.current_role_tokens = [] := rfl
    have hmood : stateOneEnder.current_mood_tokens = [] := rfl
    have hbias : stateOneEnder.base_logit_bias 0 = 0 := rfl
    have hfreq : stateOneEnder.conv_state.turn_frequencies 0 = 0 := rfl
    rw [hrole, hmood, hbias, hfreq]
    rw [if_pos (show (1 : ℚ) - ((100 : ℤ) : ℚ) / 200 < 0.6 by norm_num)]
    rw [if_pos (show (0 : ℕ) ∈ stateOneEnder.dialogue_tokens ∧
      (0 : ℕ) ∈ stateOneEnder.punctuation from ⟨hd, hp⟩)]
    norm_num [stateOneEnder]
  unfold total_shift
  rw [show stateOneEnder.vocab_size = 1 from rfl, Finset.sum_range_one, hval]
  norm_num

/-- C8 witness: in the dialogue-ender context one application shifts the
logits by 2 and two applications by 4, strictly more. -/
theorem zipf_C8_witness :
    total_shift stateOneEnder.vocab_size (fun _ => 0)
        (accelerate_logits stateOneEnder (fun _ => 0) 0 100) <
      total_shift stateOneEnder.vocab_size (fun _ => 0)
        (accelerate_logits stateOneEnder
          (accelerate_logits stateOneEnder (fun _ => 0) 0 100) 0 100) :=
  (zipf_C8_twice_doubles stateOneEnder (fun _ => 0) 0 100).2 stateOneEnder_shift_pos
